import Mathlib

/-!
Verification development for the himawaripy projection engine
(`src/himawaripy/mapper.py` and the projection-related control flow of
`src/himawaripy/__main__.py`).

The Python floating-point arithmetic is embedded over `ℝ`; numpy arrays of
shape `(3, N)` / `(2, N)` become lists of points (a point is `Fin 3 → ℝ`),
and pixel grids of shape `(height, width)` become lists of rows.  Failure
(Python exceptions) is embedded as `Option`.
-/

/-- The `Mapper` object of `mapper.py`: the fields assigned in
`Mapper.__init__` (lines 9–44). -/
structure Mapper where
  level : ℕ
  offset : ℤ × ℤ
  km_per_pixel : ℝ
  sat_lat : ℝ
  sat_long : ℝ
  kor_lat : ℝ
  kor_long : ℝ
  ctr_lat : ℝ
  ctr_long : ℝ
  earth_rad_im : ℝ
  earth_rad_km : ℝ
  him_width : ℕ
  him_height : ℕ

/-- Value of a list of decimal digit characters, most significant first. -/
def digitsToNat (cs : List Char) : ℕ :=
  cs.foldl (fun a c => 10 * a + (c.toNat - 48)) 0

/-- Modelled from the spec: Python's builtin `str.split(",")` (an external
primitive, used at `mapper.py` line 34) over the character list of the
string — split at every comma, keeping empty fields, with `[""]` for the
empty string. -/
def splitComma : List Char → List (List Char)
  | [] => [[]]
  | c :: rest =>
    if c = ',' then [] :: splitComma rest
    else
      match splitComma rest with
      | [] => [[c]]
      | h :: t => (c :: h) :: t

/-- Modelled from the spec: Python's builtin `str.strip()` (used at
`mapper.py` line 34) — remove leading and trailing whitespace. -/
def pyStrip (cs : List Char) : List Char :=
  (((cs.dropWhile Char.isWhitespace).reverse).dropWhile Char.isWhitespace).reverse

/-- Modelled from the spec: Python's builtin `float(str)` (an external
primitive, used at `mapper.py` line 34) on plain, already-stripped decimal
literals — an optional sign, digits, and at most one decimal point.
Exponent, `inf` and `nan` forms are not modelled; every string exercised
below is either a plain decimal or clearly non-numeric.  Returns `none`
where Python raises `ValueError`. -/
def parsePyFloatQ (cs : List Char) : Option ℚ :=
  let sgnRest : ℚ × List Char :=
    match cs with
    | '+' :: r => (1, r)
    | '-' :: r => (-1, r)
    | r => (1, r)
  let sgn := sgnRest.1
  let rest := sgnRest.2
  let intPart := rest.takeWhile Char.isDigit
  let rest2 := rest.dropWhile Char.isDigit
  match rest2 with
  | [] =>
    if intPart.isEmpty then none else some (sgn * (digitsToNat intPart : ℚ))
  | '.' :: r3 =>
    let fracPart := r3.takeWhile Char.isDigit
    let rest4 := r3.dropWhile Char.isDigit
    if rest4.isEmpty && !(intPart.isEmpty && fracPart.isEmpty) then
      some (sgn * ((digitsToNat intPart : ℚ)
        + (digitsToNat fracPart : ℚ) / (10 : ℚ) ^ fracPart.length))
    else none
  | _ => none

/-- `mapper.py` lines 34–36: `center.split(",")`, `float(c.strip())` applied
to every field (a single unparsable field raises `ValueError` even when it is
not one of the first two), then indexing `center[0]`, `center[1]` (an
`IndexError` when fewer than two fields are present).  `none` models the
exception. -/
def parseCenter (c : String) : Option (ℚ × ℚ) :=
  match (splitComma c.data).mapM (fun f => parsePyFloatQ (pyStrip f)) with
  | some (v0 :: v1 :: _) => some (v0, v1)
  | _ => none

/-- `math.radians`. -/
noncomputable def radians (d : ℝ) : ℝ := d * Real.pi / 180

/-- `Mapper.__init__` (`mapper.py` lines 9–44).  `center = none` models
Python `center=None`.  The constructor performs no validation of `scale`
(`km_per_pixel`); the only failure path is center-string parsing. -/
noncomputable def Mapper.init (level : ℕ) (offset : ℤ × ℤ) (scale : ℝ)
    (center : Option String) : Option Mapper :=
  let sat_lat := radians 0.03
  let sat_long := radians 143.5
  let kor_lat := radians 37.5665
  let kor_long := radians 126.9780
  let mk : ℝ → ℝ → Mapper := fun clat clong =>
    { level := level
      offset := offset
      km_per_pixel := scale
      sat_lat := sat_lat
      sat_long := sat_long
      kor_lat := kor_lat
      kor_long := kor_long
      ctr_lat := clat
      ctr_long := clong
      earth_rad_im := 1 - 40.0 / 4400
      earth_rad_km := 6371.0
      him_width := 550
      him_height := 550 }
  match center with
  | none => some (mk (kor_lat - radians 3.0) kor_long)
  | some c =>
    if c = "" then some (mk (kor_lat - radians 3.0) kor_long)
    else (parseCenter c).map (fun v => mk (radians (v.1 : ℝ)) (radians (v.2 : ℝ)))

/-- The rotation matrix `std_to_prime` built in `Mapper.cartesian_to_earth`
(`mapper.py` lines 83–95), with `theta_prime = π/2 − sat_lat` and
`phi_prime = sat_long − longitude`. -/
noncomputable def Mapper.std_to_prime (m : Mapper) (longitude : ℝ) :
    Matrix (Fin 3) (Fin 3) ℝ :=
  let th := Real.pi * 0.5 - m.sat_lat
  let ph := m.sat_long - longitude
  Matrix.of
    ![![Real.sin th * Real.cos ph, Real.sin th * Real.sin ph, Real.cos th],
      ![-Real.sin ph, Real.cos ph, 0],
      ![-(Real.cos th * Real.cos ph), -(Real.cos th * Real.sin ph), Real.sin th]]

/-- The rotation matrix `prime_to_std` built in `Mapper.earth_to_cartesian`
(`mapper.py` lines 65–77). -/
noncomputable def Mapper.prime_to_std (m : Mapper) (longitude : ℝ) :
    Matrix (Fin 3) (Fin 3) ℝ :=
  let th := Real.pi * 0.5 - m.sat_lat
  let ph := m.sat_long - longitude
  Matrix.of
    ![![Real.sin th * Real.cos ph, -Real.sin ph, -(Real.cos th * Real.cos ph)],
      ![Real.sin th * Real.sin ph, Real.cos ph, -(Real.cos th * Real.sin ph)],
      ![Real.cos th, 0, Real.sin th]]

/-- `Mapper.cartesian_to_earth` (`mapper.py` lines 82–113) on one point of
the `(3, N)` batch: rotate into the prime frame, project onto the image
plane, then shift by the tile offset. -/
noncomputable def Mapper.cartesian_to_earth (m : Mapper) (p : Fin 3 → ℝ)
    (longitude : ℝ) : ℝ × ℝ :=
  let prime := (m.std_to_prime longitude).mulVec p
  let imsize : ℝ := (m.him_width : ℝ) * (m.level : ℝ)
  let x_earth := (prime 1 * m.earth_rad_im + 1.0) * imsize * 0.5
    - (m.offset.1 : ℝ) * (m.him_width : ℝ)
  let y_earth := (-(prime 2) * m.earth_rad_im + 1.0) * imsize * 0.5
    - (m.offset.2 : ℝ) * (m.him_height : ℝ)
  (x_earth, y_earth)

/-- `Mapper.earth_to_cartesian` (`mapper.py` lines 46–80) on one point (the
`N = 1` case, the only batch size on which the Python function returns — see
`Mapper.earth_to_cartesian_np` below): add the tile offset back, recover the
prime-frame `y`, `z`, take `x = sqrt(1 − y² − z²)` (positive root), rotate
back with `prime_to_std`. -/
noncomputable def Mapper.earth_to_cartesian (m : Mapper) (e : ℝ × ℝ)
    (longitude : ℝ) : Fin 3 → ℝ :=
  let imsize : ℝ := (m.him_width : ℝ) * (m.level : ℝ)
  let x_earth := e.1 + (m.offset.1 : ℝ) * (m.him_width : ℝ)
  let y_earth := e.2 + (m.offset.2 : ℝ) * (m.him_height : ℝ)
  let y_prime := (2.0 * x_earth / imsize - 1.0) / m.earth_rad_im
  let z_prime := (-2.0 * y_earth / imsize + 1.0) / m.earth_rad_im
  let x_prime := Real.sqrt (1.0 - y_prime * y_prime - z_prime * z_prime)
  (m.prime_to_std longitude).mulVec ![x_prime, y_prime, z_prime]

/-- The grid spacing of `Mapper.map_to_cartesian` (`mapper.py` lines
135–136): `km_per_pixel / earth_rad_km`, further divided by
`2·cos(ctr_lat)`. -/
noncomputable def Mapper.mapScale (m : Mapper) : ℝ :=
  m.km_per_pixel / m.earth_rad_km / (2.0 * Real.cos m.ctr_lat)

/-- The axis shift of `Mapper.map_to_cartesian` (`mapper.py` line 141):
`2·(1 − sin(ctr_lat))`. -/
noncomputable def Mapper.ctr_offset (m : Mapper) : ℝ :=
  2.0 * (1.0 - Real.sin m.ctr_lat)

/-- `mapper.py` line 137: entry `j` of `y_lin = (arange(width) − width·0.5)
· scale`. -/
noncomputable def Mapper.y_lin (m : Mapper) (width : ℕ) (j : ℕ) : ℝ :=
  ((j : ℝ) - (width : ℝ) * 0.5) * m.mapScale

/-- `mapper.py` lines 138, 142: entry `i` of `x_lin = (arange(height) −
height·0.5) · scale + ctr_offset`. -/
noncomputable def Mapper.x_lin (m : Mapper) (height : ℕ) (i : ℕ) : ℝ :=
  ((i : ℝ) - (height : ℝ) * 0.5) * m.mapScale + m.ctr_offset

/-- `mapper.py` lines 145–151: the inverse Lambert azimuthal equal-area step
applied elementwise to the grid. -/
noncomputable def invLambert (x_map y_map : ℝ) : Fin 3 → ℝ :=
  let sum_of_sq := x_map * x_map + y_map * y_map
  let factor := Real.sqrt (1.0 - sum_of_sq * 0.25)
  ![x_map * factor, y_map * factor, 1.0 - sum_of_sq * 0.5]

/-- `Mapper.map_to_cartesian` (`mapper.py` lines 130–153) at grid row `i`,
column `j`: `meshgrid` gives `x_map[i,j] = x_lin[i]`, `y_map[i,j] =
y_lin[j]`. -/
noncomputable def Mapper.map_to_cartesian_pt (m : Mapper) (width height : ℕ)
    (i j : ℕ) : Fin 3 → ℝ :=
  invLambert (m.x_lin height i) (m.y_lin width j)

/-- The full `(3, height, width)` output of `Mapper.map_to_cartesian`, as a
list of `height` rows of `width` points. -/
noncomputable def Mapper.map_to_cartesian_grid (m : Mapper) (width height : ℕ) :
    List (List (Fin 3 → ℝ)) :=
  (List.range height).map (fun i =>
    (List.range width).map (fun j => m.map_to_cartesian_pt width height i j))

/-- `Mapper.cartesian_to_earth` on a whole `(3, N)` batch.  The numpy code
reshapes to `(3, N)`, multiplies by the rotation matrix, and applies the
remaining arithmetic elementwise, which is the pointwise map below. -/
noncomputable def Mapper.cartesian_to_earth_batch (m : Mapper)
    (pts : List (Fin 3 → ℝ)) (longitude : ℝ) : List (ℝ × ℝ) :=
  pts.map (fun p => m.cartesian_to_earth p longitude)

/-- `Mapper.get_map_transforms` (`mapper.py` lines 155–162): compose
`map_to_cartesian` with `cartesian_to_earth` at `longitude = ctr_long`.
(The `astype(np.float32)` narrowing is embedded as the identity.) -/
noncomputable def Mapper.get_map_transforms (m : Mapper) (width height : ℕ) :
    List (List (ℝ × ℝ)) :=
  (m.map_to_cartesian_grid width height).map
    (fun row => m.cartesian_to_earth_batch row m.ctr_long)

/-- Modelled from the spec: the external resampler (`cv2.remap` with
`INTER_CUBIC`, §4.2 "Resampler") produces exactly one output pixel per
coordinate pair — the output has the shape of the coordinate map.  The
interpolation kernel is abstracted as the `sample` argument. -/
def remap (src : List (List ℝ)) (mapxy : List (List (ℝ × ℝ)))
    (sample : List (List ℝ) → ℝ × ℝ → ℝ) : List (List ℝ) :=
  mapxy.map (fun row => row.map (fun c => sample src c))

/-- `Mapper.transform` (`mapper.py` lines 164–172): compute the coordinate
map, then resample the source image at it. -/
noncomputable def Mapper.transform (m : Mapper) (src : List (List ℝ))
    (sample : List (List ℝ) → ℝ × ℝ → ℝ) (width height : ℕ) :
    List (List ℝ) :=
  remap src (m.get_map_transforms width height) sample

/-- Modelled from the spec/Python semantics: `float()` applied to a numpy
array (which is what `math.sqrt(arr)` does first) succeeds only for size-1
arrays and raises `TypeError` otherwise. -/
def pyFloat (xs : List ℝ) : Option ℝ :=
  match xs with
  | [x] => some x
  | _ => none

open Classical in
/-- `Mapper.earth_to_cartesian` (`mapper.py` lines 46–80) on a `(2, N)`
batch, given as its two rows.  Line 60 applies `math.sqrt` to the array
`1 − y_prime² − z_prime²`; this has two failure modes, both modelled as
`none`: `float()` on that array raises `TypeError` unless it has exactly
one element, and `math.sqrt` itself raises `ValueError` when the resulting
scalar is negative (a pixel mapping outside the earth disk). -/
noncomputable def Mapper.earth_to_cartesian_np (m : Mapper)
    (xrow yrow : List ℝ) (longitude : ℝ) : Option (List (Fin 3 → ℝ)) :=
  let x_earth := xrow.map (fun t => t + (m.offset.1 : ℝ) * (m.him_width : ℝ))
  let y_earth := yrow.map (fun t => t + (m.offset.2 : ℝ) * (m.him_height : ℝ))
  let imsize : ℝ := (m.him_width : ℝ) * (m.level : ℝ)
  let y_prime := x_earth.map (fun t => (2.0 * t / imsize - 1.0) / m.earth_rad_im)
  let z_prime := y_earth.map (fun t => (-2.0 * t / imsize + 1.0) / m.earth_rad_im)
  let sq := List.zipWith (fun y z => 1.0 - y * y - z * z) y_prime z_prime
  match pyFloat sq with
  | none => none
  | some v =>
    if 0 ≤ v then
      let x_prime := Real.sqrt v
      some ((List.zipWith (fun y z => ![x_prime, y, z]) y_prime z_prime).map
        (fun p => (m.prime_to_std longitude).mulVec p))
    else none

/-- `mapper.py` lines 51–54: `x_earth = earth_coord[0, :]` and
`y_earth = earth_coord[1, :]` are views into the caller's array, and the
`+=` on lines 53–54 adds the tile offsets in place.  This is the state of
the caller's two rows after those lines run (they run before the
`math.sqrt` call, so the mutation happens even when that call raises). -/
noncomputable def Mapper.earth_to_cartesian_mutated (m : Mapper)
    (earth : List ℝ × List ℝ) : List ℝ × List ℝ :=
  (earth.1.map (fun t => t + (m.offset.1 : ℝ) * (m.him_width : ℝ)),
   earth.2.map (fun t => t + (m.offset.2 : ℝ) * (m.him_height : ℝ)))

/-- The instance methods this file invokes on `numpy.ndarray` values
(`dot`, `reshape`, `astype`).  `multiply` is not among them: elementwise
product on ndarrays is the module-level `np.multiply` or `*`, and the
attribute lookup `temp.multiply` raises `AttributeError`. -/
def ndarrayMethods : List String := ["dot", "reshape", "astype"]

/-- `Mapper.cartesian_to_map` (`mapper.py` lines 115–128): computes
`temp = sqrt(2 / (1 + z))`, then evaluates `temp.multiply(x_std)`.  The
attribute lookup fails (see `ndarrayMethods`), modelled by the guard: no
input reaches the `some` branch. -/
noncomputable def Mapper.cartesian_to_map (m : Mapper)
    (pts : List (Fin 3 → ℝ)) : Option (List ℝ × List ℝ) :=
  let temp := pts.map (fun p => Real.sqrt (2.0 / (1.0 + p 2)))
  if "multiply" ∈ ndarrayMethods then
    some (List.zipWith (· * ·) temp (pts.map (fun p => p 0)),
          List.zipWith (· * ·) temp (pts.map (fun p => p 1)))
  else none

/-- `__main__.py` lines 202–209: `mapper = None; if args.scale != 0.0:
mapper = Mapper(...)`.  Outer `none` models a constructor exception
propagating out of `thread_main`; `some none` is "no mapper built". -/
noncomputable def runMapper (scale : ℝ) (level : ℕ) (off : ℤ × ℤ)
    (center : Option String) : Option (Option Mapper) :=
  if scale = 0 then some none
  else
    match Mapper.init level off scale center with
    | none => none
    | some m => some (some m)

/-- Which branch of `__main__.py` lines 266–284 produces the output
image. -/
inductive RenderPath where
  | projected : RenderPath
  | cropped : RenderPath
deriving DecidableEq

open Classical in
/-- `__main__.py` line 267: `if mapper is not None and width != 0 and
height != 0:` selects the projection branch, otherwise the crop branch. -/
noncomputable def renderPath (mapper : Option Mapper) (width height : ℝ) :
    RenderPath :=
  if mapper.isSome = true ∧ width ≠ 0 ∧ height ≠ 0 then RenderPath.projected
  else RenderPath.cropped

/-- Follows the spec's words ("the standard-frame unit vector of the center
point", §4.1): the standard-frame unit vector of a ground point at latitude
`lat` and longitude `lonRel` relative to the reference longitude, in the
convention fixed by `prime_to_std` (the sub-satellite direction is the image
of the prime x-axis). -/
noncomputable def latLongUnitVec_spec (lat lonRel : ℝ) : Fin 3 → ℝ :=
  ![Real.cos lat * Real.cos lonRel, Real.cos lat * Real.sin lonRel,
    Real.sin lat]

/-- A concrete configuration used as a test input: satellite angles and map
center zeroed, unit scale, zero tile offset. -/
noncomputable def mTest : Mapper :=
  { level := 4
    offset := (0, 0)
    km_per_pixel := 1
    sat_lat := 0
    sat_long := 0
    kor_lat := 0
    kor_long := 0
    ctr_lat := 0
    ctr_long := 0
    earth_rad_im := 1 - 40.0 / 4400
    earth_rad_km := 6371.0
    him_width := 550
    him_height := 550 }

/-- A second concrete configuration with the map center at the north pole
(`ctr_lat = π/2`). -/
noncomputable def mPole : Mapper :=
  { level := 4
    offset := (0, 0)
    km_per_pixel := 1
    sat_lat := 0
    sat_long := 0
    kor_lat := 0
    kor_long := 0
    ctr_lat := Real.pi / 2
    ctr_long := 0
    earth_rad_im := 1 - 40.0 / 4400
    earth_rad_km := 6371.0
    him_width := 550
    him_height := 550 }

/-- The value `Mapper.__init__` produces for `center=None` (default center):
spelled out, for use as a concrete constructed configuration. -/
noncomputable def defaultMapper (level : ℕ) (offset : ℤ × ℤ) (scale : ℝ) :
    Mapper :=
  { level := level
    offset := offset
    km_per_pixel := scale
    sat_lat := radians 0.03
    sat_long := radians 143.5
    kor_lat := radians 37.5665
    kor_long := radians 126.9780
    ctr_lat := radians 37.5665 - radians 3.0
    ctr_long := radians 126.9780
    earth_rad_im := 1 - 40.0 / 4400
    earth_rad_km := 6371.0
    him_width := 550
    him_height := 550 }

/-- `mTest` with the repository's default tile offset `(5, 2)`. -/
noncomputable def mOff : Mapper :=
  { mTest with offset := (5, 2) }

/-! ## Rotation-matrix facts -/

lemma prime_to_std_eq_transpose (m : Mapper) (longitude : ℝ) :
    m.prime_to_std longitude = (m.std_to_prime longitude).transpose := by
  ext i j
  fin_cases i <;> fin_cases j <;>
    simp [Mapper.prime_to_std, Mapper.std_to_prime, Matrix.transpose_apply]

lemma prime_to_std_mul_std_to_prime (m : Mapper) (longitude : ℝ) :
    m.prime_to_std longitude * m.std_to_prime longitude = 1 := by
  have hth := Real.sin_sq_add_cos_sq (Real.pi * 0.5 - m.sat_lat)
  have hph := Real.sin_sq_add_cos_sq (m.sat_long - longitude)
  ext i j
  fin_cases i <;> fin_cases j <;>
    simp [Mapper.prime_to_std, Mapper.std_to_prime, Matrix.mul_apply,
      Fin.sum_univ_three, Matrix.one_apply] <;>
    first
      | nlinarith [hth, hph]
      | linear_combination
          (Real.cos (m.sat_long - longitude)
            * Real.sin (m.sat_long - longitude)) * hth

lemma std_to_prime_orthonormal (m : Mapper) (longitude : ℝ) :
    (m.std_to_prime longitude).transpose * m.std_to_prime longitude = 1 := by
  rw [← prime_to_std_eq_transpose]
  exact prime_to_std_mul_std_to_prime m longitude

lemma prime_std_roundtrip (m : Mapper) (longitude : ℝ) (v : Fin 3 → ℝ) :
    (m.prime_to_std longitude).mulVec ((m.std_to_prime longitude).mulVec v)
      = v := by
  rw [prime_to_std_eq_transpose, Matrix.mulVec_mulVec,
    std_to_prime_orthonormal, Matrix.one_mulVec]

lemma std_to_prime_norm_sq (m : Mapper) (longitude : ℝ) (v : Fin 3 → ℝ) :
    ((m.std_to_prime longitude).mulVec v 0) ^ 2
      + ((m.std_to_prime longitude).mulVec v 1) ^ 2
      + ((m.std_to_prime longitude).mulVec v 2) ^ 2
      = (v 0) ^ 2 + (v 1) ^ 2 + (v 2) ^ 2 := by
  have hth := Real.sin_sq_add_cos_sq (Real.pi * 0.5 - m.sat_lat)
  have hph := Real.sin_sq_add_cos_sq (m.sat_long - longitude)
  simp [Mapper.std_to_prime, Matrix.mulVec, Matrix.dotProduct,
    Fin.sum_univ_three]
  linear_combination
    (Real.cos (m.sat_long - longitude) ^ 2 * (v 0) ^ 2
      + Real.sin (m.sat_long - longitude) ^ 2 * (v 1) ^ 2 + (v 2) ^ 2
      + 2 * Real.cos (m.sat_long - longitude) * Real.sin (m.sat_long - longitude)
        * v 0 * v 1) * hth
    + ((v 0) ^ 2 + (v 1) ^ 2) * hph

/-- C5: for all angle parameters (any `sat_lat`, `sat_long`, and reference
longitude), the 3×3 matrix `std_to_prime` built in `cartesian_to_earth` is
orthonormal — its transpose times itself is the identity — and the matrix
`prime_to_std` built in `earth_to_cartesian` is exactly its transpose. -/
theorem C5_rotation_matrices (m : Mapper) (longitude : ℝ) :
    (m.std_to_prime longitude).transpose * m.std_to_prime longitude = 1
    ∧ m.prime_to_std longitude = (m.std_to_prime longitude).transpose :=
  ⟨std_to_prime_orthonormal m longitude, prime_to_std_eq_transpose m longitude⟩

/-- C1: for every configuration with nonzero image size `him_width·level`
and nonzero `earth_rad_im` (every constructed configuration: `him_width =
550`, `level ∈ {4,8,16,20}`, `earth_rad_im = 109/110`), and every unit
vector `p` in standard Cartesian space whose prime-frame x component is
nonnegative, `earth_to_cartesian (cartesian_to_earth p lon) lon` returns `p`
within `1e-6` in each component (the real-arithmetic embedding recovers it
exactly). -/
theorem C1_roundtrip (m : Mapper) (longitude : ℝ) (p : Fin 3 → ℝ)
    (hsize : (m.him_width : ℝ) * (m.level : ℝ) ≠ 0)
    (hrad : m.earth_rad_im ≠ 0)
    (hunit : (p 0) ^ 2 + (p 1) ^ 2 + (p 2) ^ 2 = 1)
    (hnear : 0 ≤ (m.std_to_prime longitude).mulVec p 0) :
    ∀ i : Fin 3,
      |m.earth_to_cartesian (m.cartesian_to_earth p longitude) longitude i
        - p i| ≤ 1e-6 := by
  have hnorm : ((m.std_to_prime longitude).mulVec p 0) ^ 2
      + ((m.std_to_prime longitude).mulVec p 1) ^ 2
      + ((m.std_to_prime longitude).mulVec p 2) ^ 2 = 1 :=
    (std_to_prime_norm_sq m longitude p).trans hunit
  have hy : (2.0 * ((m.cartesian_to_earth p longitude).1
        + (m.offset.1 : ℝ) * (m.him_width : ℝ))
        / ((m.him_width : ℝ) * (m.level : ℝ)) - 1.0) / m.earth_rad_im
      = (m.std_to_prime longitude).mulVec p 1 := by
    show (2.0 * ((((m.std_to_prime longitude).mulVec p 1 * m.earth_rad_im
        + 1.0) * ((m.him_width : ℝ) * (m.level : ℝ)) * 0.5
        - (m.offset.1 : ℝ) * (m.him_width : ℝ))
        + (m.offset.1 : ℝ) * (m.him_width : ℝ))
        / ((m.him_width : ℝ) * (m.level : ℝ)) - 1.0) / m.earth_rad_im = _
    field_simp
    ring
  have hz : (-2.0 * ((m.cartesian_to_earth p longitude).2
        + (m.offset.2 : ℝ) * (m.him_height : ℝ))
        / ((m.him_width : ℝ) * (m.level : ℝ)) + 1.0) / m.earth_rad_im
      = (m.std_to_prime longitude).mulVec p 2 := by
    show (-2.0 * (((-((m.std_to_prime longitude).mulVec p 2)
        * m.earth_rad_im + 1.0) * ((m.him_width : ℝ) * (m.level : ℝ)) * 0.5
        - (m.offset.2 : ℝ) * (m.him_height : ℝ))
        + (m.offset.2 : ℝ) * (m.him_height : ℝ))
        / ((m.him_width : ℝ) * (m.level : ℝ)) + 1.0) / m.earth_rad_im = _
    field_simp
    ring
  have hx : Real.sqrt (1.0
        - ((2.0 * ((m.cartesian_to_earth p longitude).1
            + (m.offset.1 : ℝ) * (m.him_width : ℝ))
            / ((m.him_width : ℝ) * (m.level : ℝ)) - 1.0) / m.earth_rad_im)
          * ((2.0 * ((m.cartesian_to_earth p longitude).1
            + (m.offset.1 : ℝ) * (m.him_width : ℝ))
            / ((m.him_width : ℝ) * (m.level : ℝ)) - 1.0) / m.earth_rad_im)
        - ((-2.0 * ((m.cartesian_to_earth p longitude).2
            + (m.offset.2 : ℝ) * (m.him_height : ℝ))
            / ((m.him_width : ℝ) * (m.level : ℝ)) + 1.0) / m.earth_rad_im)
          * ((-2.0 * ((m.cartesian_to_earth p longitude).2
            + (m.offset.2 : ℝ) * (m.him_height : ℝ))
            / ((m.him_width : ℝ) * (m.level : ℝ)) + 1.0) / m.earth_rad_im))
      = (m.std_to_prime longitude).mulVec p 0 := by
    rw [hy, hz]
    have harg : 1.0 - (m.std_to_prime longitude).mulVec p 1
          * (m.std_to_prime longitude).mulVec p 1
        - (m.std_to_prime longitude).mulVec p 2
          * (m.std_to_prime longitude).mulVec p 2
        = ((m.std_to_prime longitude).mulVec p 0) ^ 2 := by nlinarith [hnorm]
    rw [harg, Real.sqrt_sq hnear]
  have hfun : m.earth_to_cartesian (m.cartesian_to_earth p longitude) longitude
      = (m.prime_to_std longitude).mulVec
        ![Real.sqrt (1.0
            - ((2.0 * ((m.cartesian_to_earth p longitude).1
                + (m.offset.1 : ℝ) * (m.him_width : ℝ))
                / ((m.him_width : ℝ) * (m.level : ℝ)) - 1.0) / m.earth_rad_im)
              * ((2.0 * ((m.cartesian_to_earth p longitude).1
                + (m.offset.1 : ℝ) * (m.him_width : ℝ))
                / ((m.him_width : ℝ) * (m.level : ℝ)) - 1.0) / m.earth_rad_im)
            - ((-2.0 * ((m.cartesian_to_earth p longitude).2
                + (m.offset.2 : ℝ) * (m.him_height : ℝ))
                / ((m.him_width : ℝ) * (m.level : ℝ)) + 1.0) / m.earth_rad_im)
              * ((-2.0 * ((m.cartesian_to_earth p longitude).2
                + (m.offset.2 : ℝ) * (m.him_height : ℝ))
                / ((m.him_width : ℝ) * (m.level : ℝ)) + 1.0) / m.earth_rad_im)),
          (2.0 * ((m.cartesian_to_earth p longitude).1
            + (m.offset.1 : ℝ) * (m.him_width : ℝ))
            / ((m.him_width : ℝ) * (m.level : ℝ)) - 1.0) / m.earth_rad_im,
          (-2.0 * ((m.cartesian_to_earth p longitude).2
            + (m.offset.2 : ℝ) * (m.him_height : ℝ))
            / ((m.him_width : ℝ) * (m.level : ℝ)) + 1.0) / m.earth_rad_im] :=
    rfl
  intro i
  rw [hfun, hx, hy, hz]
  have hv : (![(m.std_to_prime longitude).mulVec p 0,
      (m.std_to_prime longitude).mulVec p 1,
      (m.std_to_prime longitude).mulVec p 2] : Fin 3 → ℝ)
      = (m.std_to_prime longitude).mulVec p := by
    funext k
    fin_cases k <;> rfl
  rw [hv, prime_std_roundtrip, sub_self, abs_zero]
  norm_num

/-- Witness for C1 at the configuration `mTest`, reference longitude `0` and
the point `p = (1, 0, 0)`. -/
theorem C1_roundtrip_witness :
    (((mTest.him_width : ℝ) * (mTest.level : ℝ) ≠ 0)
      ∧ mTest.earth_rad_im ≠ 0
      ∧ ((![1, 0, 0] : Fin 3 → ℝ) 0) ^ 2 + ((![1, 0, 0] : Fin 3 → ℝ) 1) ^ 2
          + ((![1, 0, 0] : Fin 3 → ℝ) 2) ^ 2 = 1
      ∧ 0 ≤ (mTest.std_to_prime 0).mulVec ![1, 0, 0] 0)
    ∧ ∀ i : Fin 3,
        |mTest.earth_to_cartesian (mTest.cartesian_to_earth ![1, 0, 0] 0) 0 i
          - (![1, 0, 0] : Fin 3 → ℝ) i| ≤ 1e-6 := by
  have e1 : Real.pi * 0.5 - (0 : ℝ) = Real.pi / 2 := by ring
  have h1 : ((mTest.him_width : ℝ) * (mTest.level : ℝ)) ≠ 0 := by
    norm_num [mTest]
  have h2 : mTest.earth_rad_im ≠ 0 := by norm_num [mTest]
  have h3 : ((![1, 0, 0] : Fin 3 → ℝ) 0) ^ 2 + ((![1, 0, 0] : Fin 3 → ℝ) 1) ^ 2
      + ((![1, 0, 0] : Fin 3 → ℝ) 2) ^ 2 = 1 := by norm_num
  have h4 : 0 ≤ (mTest.std_to_prime 0).mulVec ![1, 0, 0] 0 := by
    simp [mTest, Mapper.std_to_prime, Matrix.mulVec, Matrix.dotProduct,
      Fin.sum_univ_three, e1, Real.sin_pi_div_two, Real.cos_zero]
  exact ⟨⟨h1, h2, h3, h4⟩, C1_roundtrip mTest 0 ![1, 0, 0] h1 h2 h3 h4⟩

/-- C3: for every configuration and every grid point whose squared planar
radius `ρ² = x_map² + y_map²` is at most 4, the triple produced by
`map_to_cartesian` lies on the unit sphere within `1e-9` (exactly, in the
real-arithmetic embedding). -/
theorem C3_unit_sphere (m : Mapper) (width height i j : ℕ)
    (hrho : m.x_lin height i * m.x_lin height i
      + m.y_lin width j * m.y_lin width j ≤ 4) :
    |(m.map_to_cartesian_pt width height i j 0) ^ 2
      + (m.map_to_cartesian_pt width height i j 1) ^ 2
      + (m.map_to_cartesian_pt width height i j 2) ^ 2 - 1| ≤ 1e-9 := by
  have h0 : (0 : ℝ) ≤ 1.0 - (m.x_lin height i * m.x_lin height i
      + m.y_lin width j * m.y_lin width j) * 0.25 := by linarith
  have hsq := Real.sq_sqrt h0
  have hpt0 : m.map_to_cartesian_pt width height i j 0
      = m.x_lin height i * Real.sqrt (1.0 - (m.x_lin height i * m.x_lin height i
        + m.y_lin width j * m.y_lin width j) * 0.25) := rfl
  have hpt1 : m.map_to_cartesian_pt width height i j 1
      = m.y_lin width j * Real.sqrt (1.0 - (m.x_lin height i * m.x_lin height i
        + m.y_lin width j * m.y_lin width j) * 0.25) := rfl
  have hpt2 : m.map_to_cartesian_pt width height i j 2
      = 1.0 - (m.x_lin height i * m.x_lin height i
        + m.y_lin width j * m.y_lin width j) * 0.5 := rfl
  rw [hpt0, hpt1, hpt2]
  have key : (m.x_lin height i * Real.sqrt (1.0
        - (m.x_lin height i * m.x_lin height i
          + m.y_lin width j * m.y_lin width j) * 0.25)) ^ 2
      + (m.y_lin width j * Real.sqrt (1.0
        - (m.x_lin height i * m.x_lin height i
          + m.y_lin width j * m.y_lin width j) * 0.25)) ^ 2
      + (1.0 - (m.x_lin height i * m.x_lin height i
          + m.y_lin width j * m.y_lin width j) * 0.5) ^ 2 - 1 = 0 := by
    linear_combination (m.x_lin height i * m.x_lin height i
      + m.y_lin width j * m.y_lin width j) * hsq
  rw [key]
  norm_num

/-- Witness for C3 at `mTest` with a 2×2 grid: the point at row 1, column 1
has `ρ² = 4`. -/
theorem C3_unit_sphere_witness :
    (mTest.x_lin 2 1 * mTest.x_lin 2 1
      + mTest.y_lin 2 1 * mTest.y_lin 2 1 ≤ 4)
    ∧ |(mTest.map_to_cartesian_pt 2 2 1 1 0) ^ 2
        + (mTest.map_to_cartesian_pt 2 2 1 1 1) ^ 2
        + (mTest.map_to_cartesian_pt 2 2 1 1 2) ^ 2 - 1| ≤ 1e-9 := by
  have hx : mTest.x_lin 2 1 = 2 := by
    simp [Mapper.x_lin, Mapper.ctr_offset, Mapper.mapScale, mTest]
    norm_num
  have hy : mTest.y_lin 2 1 = 0 := by
    simp [Mapper.y_lin, Mapper.mapScale, mTest]
    norm_num
  have h : mTest.x_lin 2 1 * mTest.x_lin 2 1
      + mTest.y_lin 2 1 * mTest.y_lin 2 1 ≤ 4 := by
    rw [hx, hy]; norm_num
  exact ⟨h, C3_unit_sphere mTest 2 2 1 1 h⟩

/-- C2 counterexample: at the configuration `mTest` (`km_per_pixel = 1 > 0`,
`ctr_lat = ctr_long = 0`) with output size 2×2, the grid point at row
`height/2 = 1`, column `width/2 = 1` inverts to `(0, 0, −1)` — the antipode
of the projection pole — not to the standard-frame unit vector `(1, 0, 0)`
of the center point: the axis shift `2·(1 − sin(ctr_lat))` does not place
the projection center at the middle image index. -/
theorem C2_center_counterexample :
    0 < mTest.km_per_pixel
    ∧ mTest.map_to_cartesian_pt 2 2 1 1 ≠ latLongUnitVec_spec mTest.ctr_lat 0 := by
  constructor
  · norm_num [mTest]
  · intro h
    have hx : mTest.x_lin 2 1 = 2 := by
      simp [Mapper.x_lin, Mapper.ctr_offset, Mapper.mapScale, mTest]
      norm_num
    have hy : mTest.y_lin 2 1 = 0 := by
      simp [Mapper.y_lin, Mapper.mapScale, mTest]
      norm_num
    have hz : mTest.map_to_cartesian_pt 2 2 1 1 2
        = 1.0 - (mTest.x_lin 2 1 * mTest.x_lin 2 1
          + mTest.y_lin 2 1 * mTest.y_lin 2 1) * 0.5 := rfl
    have h2 := congrFun h 2
    rw [hz, hx, hy] at h2
    have hl : latLongUnitVec_spec mTest.ctr_lat 0 2 = 0 := by
      simp [latLongUnitVec_spec, mTest]
    rw [hl] at h2
    norm_num at h2

/-- C2 amended: for every configuration and every even output size
`(2a, 2b)`, the grid is shifted along its reference axis by
`2·(1 − sin(ctr_lat))`; the grid point at row `height/2 = b`, column
`width/2 = a` has map-plane coordinates `(2·(1 − sin(ctr_lat)), 0)`, and its
image under the inverse Lambert formula equals the standard-frame unit
vector of the center point only if `sin(ctr_lat)` is `1` or `1/2` — not in
general. -/
theorem C2_center_amended (m : Mapper) (a b : ℕ) :
    m.x_lin (2 * b) b = m.ctr_offset
    ∧ m.y_lin (2 * a) a = 0
    ∧ m.map_to_cartesian_pt (2 * a) (2 * b) b a
        = ![m.ctr_offset * Real.sqrt (1.0 - m.ctr_offset * m.ctr_offset * 0.25),
            0, 1.0 - m.ctr_offset * m.ctr_offset * 0.5]
    ∧ (m.map_to_cartesian_pt (2 * a) (2 * b) b a = latLongUnitVec_spec m.ctr_lat 0
        → Real.sin m.ctr_lat = 1 ∨ Real.sin m.ctr_lat = 1 / 2) := by
  have hx : m.x_lin (2 * b) b = m.ctr_offset := by
    simp only [Mapper.x_lin]
    push_cast
    ring
  have hy : m.y_lin (2 * a) a = 0 := by
    simp only [Mapper.y_lin]
    push_cast
    ring
  have hgrid : m.map_to_cartesian_pt (2 * a) (2 * b) b a
      = ![m.ctr_offset * Real.sqrt (1.0 - m.ctr_offset * m.ctr_offset * 0.25),
          0, 1.0 - m.ctr_offset * m.ctr_offset * 0.5] := by
    funext k
    fin_cases k <;>
      simp [Mapper.map_to_cartesian_pt, invLambert, hx, hy]
  refine ⟨hx, hy, hgrid, fun h => ?_⟩
  have h2 := congrFun (hgrid.symm.trans h) 2
  have hl : latLongUnitVec_spec m.ctr_lat 0 2 = Real.sin m.ctr_lat := rfl
  have hv : (![m.ctr_offset * Real.sqrt (1.0
        - m.ctr_offset * m.ctr_offset * 0.25),
      0, 1.0 - m.ctr_offset * m.ctr_offset * 0.5] : Fin 3 → ℝ) 2
      = 1.0 - m.ctr_offset * m.ctr_offset * 0.5 := rfl
  rw [hl, hv] at h2
  simp only [Mapper.ctr_offset] at h2
  have hfac : (2 * Real.sin m.ctr_lat - 1) * (Real.sin m.ctr_lat - 1) = 0 := by
    linear_combination (-1 : ℝ) * h2
  rcases mul_eq_zero.mp hfac with hc | hc
  · right; linarith
  · left; linarith

/-- Witness for C2's amended theorem at `mPole` (`ctr_lat = π/2`, where
`sin = 1` and the premise of the final implication actually holds). -/
theorem C2_center_amended_witness :
    (mPole.map_to_cartesian_pt (2 * 1) (2 * 1) 1 1
      = latLongUnitVec_spec mPole.ctr_lat 0)
    ∧ (Real.sin mPole.ctr_lat = 1 ∨ Real.sin mPole.ctr_lat = 1 / 2) := by
  have hoff : mPole.ctr_offset = 0 := by
    simp [Mapper.ctr_offset, mPole]
    norm_num
  have hpre : mPole.map_to_cartesian_pt (2 * 1) (2 * 1) 1 1
      = latLongUnitVec_spec mPole.ctr_lat 0 := by
    rw [(C2_center_amended mPole 1 1).2.2.1, hoff]
    funext k
    fin_cases k <;>
      simp [latLongUnitVec_spec, mPole, Real.sin_pi_div_two,
        Real.cos_pi_div_two] <;>
      norm_num
  exact ⟨hpre, (C2_center_amended mPole 1 1).2.2.2 hpre⟩

/-! ## Shapes of the coordinate map -/

lemma get_map_transforms_eq (m : Mapper) (width height : ℕ) :
    m.get_map_transforms width height
      = (List.range height).map (fun i => (List.range width).map (fun j =>
          m.cartesian_to_earth (m.map_to_cartesian_pt width height i j)
            m.ctr_long)) := by
  simp [Mapper.get_map_transforms, Mapper.map_to_cartesian_grid,
    Mapper.cartesian_to_earth_batch, List.map_map, Function.comp]

/-- C4: for every configuration and sizes, `get_map_transforms` returns
exactly `width × height` source-coordinate pairs, arranged as `height` rows
of `width` columns, and `transform` (for any resampling kernel) produces an
image of exactly `height` rows of `width` pixels. -/
theorem C4_output_shapes (m : Mapper) (width height : ℕ)
    (src : List (List ℝ)) (sample : List (List ℝ) → ℝ × ℝ → ℝ) :
    (m.get_map_transforms width height).length = height
    ∧ ((m.get_map_transforms width height).all
        (fun row => row.length == width)) = true
    ∧ (m.get_map_transforms width height).flatten.length = width * height
    ∧ (m.transform src sample width height).length = height
    ∧ ((m.transform src sample width height).all
        (fun row => row.length == width)) = true := by
  refine ⟨?_, ?_, ?_, ?_, ?_⟩
  · simp [get_map_transforms_eq]
  · rw [List.all_eq_true]
    intro row hrow
    rw [get_map_transforms_eq] at hrow
    simp only [List.mem_map] at hrow
    obtain ⟨i, -, rfl⟩ := hrow
    simp
  · rw [get_map_transforms_eq, List.length_flatten]
    have h1 : (List.length ∘ fun i =>
        List.map (fun j => m.cartesian_to_earth
          (m.map_to_cartesian_pt width height i j) m.ctr_long)
          (List.range width)) = fun _ => width := by
      funext i
      simp
    rw [List.map_map, h1, List.map_const', List.sum_replicate]
    simp [mul_comm]
  · simp [Mapper.transform, remap]
    simp [get_map_transforms_eq]
  · rw [List.all_eq_true]
    intro row hrow
    simp only [Mapper.transform, remap, get_map_transforms_eq, List.map_map,
      List.mem_map] at hrow
    obtain ⟨i, -, rfl⟩ := hrow
    simp

/-! ## The forward map projection is unreachable -/

/-- C10: `cartesian_to_map` never returns a result — for every input batch
the attribute lookup `temp.multiply` fails (`numpy.ndarray` has no
`multiply` method), so the forward Lambert projection is unreachable
through this method. -/
theorem C10_cartesian_to_map_fails (m : Mapper) (pts : List (Fin 3 → ℝ)) :
    m.cartesian_to_map pts = none := by
  unfold Mapper.cartesian_to_map
  rw [if_neg (by decide : ¬("multiply" ∈ ndarrayMethods))]

/-! ## Construction errors -/

/-- C6 counterexample: a negative `kmPerPixel` (`scale = −1`) does not raise
a configuration error — `Mapper.__init__` performs no validation of the
scale, so construction succeeds. -/
theorem C6_negative_scale_accepted :
    (Mapper.init 20 (5, 2) (-1) (some "0,0")).isSome = true := rfl

/-- C6 amended: construction fails exactly when a center string is provided,
is nonempty, and cannot be parsed (some comma-separated field is not numeric,
or there are fewer than two fields — extra numeric fields beyond two are
ignored); a `None`/empty center falls back to the default center; the scale
(`kmPerPixel`) is never validated, so a negative scale is accepted. -/
theorem C6_config_error_amended :
    (∀ (level : ℕ) (offset : ℤ × ℤ) (scale : ℝ) (c : String),
      Mapper.init level offset scale (some c) = none
        ↔ ¬c = "" ∧ parseCenter c = none)
    ∧ (∀ (level : ℕ) (offset : ℤ × ℤ) (scale : ℝ),
        Mapper.init level offset scale none = some (defaultMapper level offset scale))
    ∧ (∀ c : String, (splitComma c.data).length = 1 → parseCenter c = none) := by
  refine ⟨fun level offset scale c => ?_, fun level offset scale => rfl,
    fun c h => ?_⟩
  · by_cases hc : c = ""
    · subst hc
      simp [Mapper.init]
    · simp [Mapper.init, hc, Option.map_eq_none']
  · obtain ⟨f, hf⟩ : ∃ f, splitComma c.data = [f] := by
      rcases hsp : splitComma c.data with - | ⟨f1, - | ⟨f2, r⟩⟩
      · rw [hsp] at h
        simp at h
      · exact ⟨f1, rfl⟩
      · rw [hsp] at h
        simp at h
    unfold parseCenter
    rw [hf]
    cases hp : parsePyFloatQ (pyStrip f) <;> simp [List.mapM, List.mapM.loop, hp]

/-- Witness for C6's amended theorem: the one-field string `"5"` fails to
parse, and the non-numeric string `"abc"` makes construction fail. -/
theorem C6_config_error_amended_witness :
    ((splitComma "5".data).length = 1 ∧ parseCenter "5" = none)
    ∧ (Mapper.init 4 (0, 0) 1 (some "abc") = none
        ↔ ¬"abc" = "" ∧ parseCenter "abc" = none) :=
  ⟨⟨by decide, C6_config_error_amended.2.2 "5" (by decide)⟩,
    C6_config_error_amended.1 4 (0, 0) 1 "abc"⟩

/-! ## Batch behaviour -/

lemma pyFloat_eq_none (xs : List ℝ) : pyFloat xs = none ↔ xs.length ≠ 1 := by
  rcases xs with - | ⟨a, - | ⟨b, t⟩⟩ <;> simp [pyFloat]

lemma pyFloat_eq_some (xs : List ℝ) (v : ℝ) (h : pyFloat xs = some v) :
    xs.length = 1 := by
  rcases xs with - | ⟨a, - | ⟨b, t⟩⟩ <;> simp [pyFloat] at h <;> simp

lemma earth_to_cartesian_np_isSome_len (m : Mapper) (longitude : ℝ)
    (xrow yrow : List ℝ) (hlen : xrow.length = yrow.length)
    (h : (m.earth_to_cartesian_np xrow yrow longitude).isSome = true) :
    xrow.length = 1 := by
  rw [Mapper.earth_to_cartesian_np] at h
  dsimp only at h
  split at h
  case _ heq =>
    simp at h
  case _ v heq =>
    have h1 := pyFloat_eq_some _ _ heq
    simpa [List.length_zipWith, hlen] using h1

lemma earth_to_cartesian_np_none (m : Mapper) (longitude : ℝ)
    (xrow yrow : List ℝ) (hlen : xrow.length = yrow.length)
    (hne : xrow.length ≠ 1) :
    m.earth_to_cartesian_np xrow yrow longitude = none := by
  rcases ho : m.earth_to_cartesian_np xrow yrow longitude with - | v
  · rfl
  · exact absurd
      (earth_to_cartesian_np_isSome_len m longitude xrow yrow hlen
        (by rw [ho]; rfl)) hne

lemma earth_to_cartesian_np_single (m : Mapper) (longitude : ℝ) (x y : ℝ) :
    (m.earth_to_cartesian_np [x] [y] longitude).isSome = true
      ↔ 0 ≤ 1.0
        - (2.0 * (x + (m.offset.1 : ℝ) * (m.him_width : ℝ))
            / ((m.him_width : ℝ) * (m.level : ℝ)) - 1.0) / m.earth_rad_im
          * ((2.0 * (x + (m.offset.1 : ℝ) * (m.him_width : ℝ))
            / ((m.him_width : ℝ) * (m.level : ℝ)) - 1.0) / m.earth_rad_im)
        - (-2.0 * (y + (m.offset.2 : ℝ) * (m.him_height : ℝ))
            / ((m.him_width : ℝ) * (m.level : ℝ)) + 1.0) / m.earth_rad_im
          * ((-2.0 * (y + (m.offset.2 : ℝ) * (m.him_height : ℝ))
            / ((m.him_width : ℝ) * (m.level : ℝ)) + 1.0) / m.earth_rad_im) := by
  have hred : m.earth_to_cartesian_np [x] [y] longitude
      = if 0 ≤ 1.0
          - (2.0 * (x + (m.offset.1 : ℝ) * (m.him_width : ℝ))
              / ((m.him_width : ℝ) * (m.level : ℝ)) - 1.0) / m.earth_rad_im
            * ((2.0 * (x + (m.offset.1 : ℝ) * (m.him_width : ℝ))
              / ((m.him_width : ℝ) * (m.level : ℝ)) - 1.0) / m.earth_rad_im)
          - (-2.0 * (y + (m.offset.2 : ℝ) * (m.him_height : ℝ))
              / ((m.him_width : ℝ) * (m.level : ℝ)) + 1.0) / m.earth_rad_im
            * ((-2.0 * (y + (m.offset.2 : ℝ) * (m.him_height : ℝ))
              / ((m.him_width : ℝ) * (m.level : ℝ)) + 1.0) / m.earth_rad_im)
        then
          some [(m.prime_to_std longitude).mulVec
            ![Real.sqrt (1.0
              - (2.0 * (x + (m.offset.1 : ℝ) * (m.him_width : ℝ))
                  / ((m.him_width : ℝ) * (m.level : ℝ)) - 1.0) / m.earth_rad_im
                * ((2.0 * (x + (m.offset.1 : ℝ) * (m.him_width : ℝ))
                  / ((m.him_width : ℝ) * (m.level : ℝ)) - 1.0) / m.earth_rad_im)
              - (-2.0 * (y + (m.offset.2 : ℝ) * (m.him_height : ℝ))
                  / ((m.him_width : ℝ) * (m.level : ℝ)) + 1.0) / m.earth_rad_im
                * ((-2.0 * (y + (m.offset.2 : ℝ) * (m.him_height : ℝ))
                  / ((m.him_width : ℝ) * (m.level : ℝ)) + 1.0) / m.earth_rad_im)),
              (2.0 * (x + (m.offset.1 : ℝ) * (m.him_width : ℝ))
                / ((m.him_width : ℝ) * (m.level : ℝ)) - 1.0) / m.earth_rad_im,
              (-2.0 * (y + (m.offset.2 : ℝ) * (m.him_height : ℝ))
                / ((m.him_width : ℝ) * (m.level : ℝ)) + 1.0) / m.earth_rad_im]]
        else none := rfl
  rw [hred]
  by_cases h : 0 ≤ 1.0
      - (2.0 * (x + (m.offset.1 : ℝ) * (m.him_width : ℝ))
          / ((m.him_width : ℝ) * (m.level : ℝ)) - 1.0) / m.earth_rad_im
        * ((2.0 * (x + (m.offset.1 : ℝ) * (m.him_width : ℝ))
          / ((m.him_width : ℝ) * (m.level : ℝ)) - 1.0) / m.earth_rad_im)
      - (-2.0 * (y + (m.offset.2 : ℝ) * (m.him_height : ℝ))
          / ((m.him_width : ℝ) * (m.level : ℝ)) + 1.0) / m.earth_rad_im
        * ((-2.0 * (y + (m.offset.2 : ℝ) * (m.him_height : ℝ))
          / ((m.him_width : ℝ) * (m.level : ℝ)) + 1.0) / m.earth_rad_im)
  · simp [h]
  · simp [h]

/-- C7 counterexample: `earth_to_cartesian` does fail on a multi-point
batch — on the `(2, 2)` batch with rows `[0, 0]`, `[0, 0]`, the
`math.sqrt` call on a size-2 array raises `TypeError`, modelled as
`none`. -/
theorem C7_batch_counterexample :
    mTest.earth_to_cartesian_np [0, 0] [0, 0] 0 = none := rfl

/-- C7 amended: `cartesian_to_earth` and `map_to_cartesian` are total
vectorized batch operations returning arrays of the matching batch shape,
but `earth_to_cartesian` is not: it applies the scalar `math.sqrt` to a
numpy array, so it returns no result (`TypeError`) on every `(2, N)` batch
with `N > 1`; a result requires `N = 1`, and even a single-point batch
succeeds exactly when the sqrt argument `1 − y_prime² − z_prime²` is
nonnegative (otherwise `math.sqrt` raises `ValueError`). -/
theorem C7_vectorized_amended (m : Mapper) (longitude : ℝ) :
    (∀ pts : List (Fin 3 → ℝ),
      (m.cartesian_to_earth_batch pts longitude).length = pts.length)
    ∧ (∀ width height : ℕ,
        (m.map_to_cartesian_grid width height).length = height
        ∧ ((m.map_to_cartesian_grid width height).all
            (fun row => row.length == width)) = true)
    ∧ (∀ xrow yrow : List ℝ, xrow.length = yrow.length →
        (m.earth_to_cartesian_np xrow yrow longitude).isSome = true →
        xrow.length = 1)
    ∧ (∀ xrow yrow : List ℝ, xrow.length = yrow.length → 1 < xrow.length →
        m.earth_to_cartesian_np xrow yrow longitude = none)
    ∧ (∀ x y : ℝ,
        (m.earth_to_cartesian_np [x] [y] longitude).isSome = true
          ↔ 0 ≤ 1.0
            - (2.0 * (x + (m.offset.1 : ℝ) * (m.him_width : ℝ))
                / ((m.him_width : ℝ) * (m.level : ℝ)) - 1.0) / m.earth_rad_im
              * ((2.0 * (x + (m.offset.1 : ℝ) * (m.him_width : ℝ))
                / ((m.him_width : ℝ) * (m.level : ℝ)) - 1.0) / m.earth_rad_im)
            - (-2.0 * (y + (m.offset.2 : ℝ) * (m.him_height : ℝ))
                / ((m.him_width : ℝ) * (m.level : ℝ)) + 1.0) / m.earth_rad_im
              * ((-2.0 * (y + (m.offset.2 : ℝ) * (m.him_height : ℝ))
                / ((m.him_width : ℝ) * (m.level : ℝ)) + 1.0) / m.earth_rad_im)) := by
  refine ⟨fun pts => by simp [Mapper.cartesian_to_earth_batch],
    fun width height => ⟨by simp [Mapper.map_to_cartesian_grid], ?_⟩,
    fun xr yr h => earth_to_cartesian_np_isSome_len m longitude xr yr h,
    fun xr yr h h2 =>
      earth_to_cartesian_np_none m longitude xr yr h (by omega),
    fun x y => earth_to_cartesian_np_single m longitude x y⟩
  rw [List.all_eq_true]
  intro row hrow
  simp only [Mapper.map_to_cartesian_grid, List.mem_map] at hrow
  obtain ⟨i, -, rfl⟩ := hrow
  simp

/-- Witness for C7's amended theorem: at `mTest` the single-point batch
`([1100], [1100])` maps to the sub-satellite pixel (prime-frame `y = z =
0`, sqrt argument `1 ≥ 0`) and succeeds, while the two-point batch fails. -/
theorem C7_vectorized_amended_witness :
    (([(1100 : ℝ)] : List ℝ).length = ([(1100 : ℝ)] : List ℝ).length
      ∧ ((mTest.earth_to_cartesian_np [1100] [1100] 0).isSome = true
          ↔ 0 ≤ 1.0
            - (2.0 * (1100 + (mTest.offset.1 : ℝ) * (mTest.him_width : ℝ))
                / ((mTest.him_width : ℝ) * (mTest.level : ℝ)) - 1.0)
                / mTest.earth_rad_im
              * ((2.0 * (1100 + (mTest.offset.1 : ℝ) * (mTest.him_width : ℝ))
                / ((mTest.him_width : ℝ) * (mTest.level : ℝ)) - 1.0)
                / mTest.earth_rad_im)
            - (-2.0 * (1100 + (mTest.offset.2 : ℝ) * (mTest.him_height : ℝ))
                / ((mTest.him_width : ℝ) * (mTest.level : ℝ)) + 1.0)
                / mTest.earth_rad_im
              * ((-2.0 * (1100 + (mTest.offset.2 : ℝ) * (mTest.him_height : ℝ))
                / ((mTest.him_width : ℝ) * (mTest.level : ℝ)) + 1.0)
                / mTest.earth_rad_im))
      ∧ (mTest.earth_to_cartesian_np [1100] [1100] 0).isSome = true
      ∧ ([(1100 : ℝ)] : List ℝ).length = 1)
    ∧ (([(0 : ℝ), 0] : List ℝ).length = ([(0 : ℝ), 0] : List ℝ).length
      ∧ 1 < ([(0 : ℝ), 0] : List ℝ).length
      ∧ mTest.earth_to_cartesian_np [0, 0] [0, 0] 0 = none) := by
  have hiff := (C7_vectorized_amended mTest 0).2.2.2.2 1100 1100
  have hpos : (0 : ℝ) ≤ 1.0
      - (2.0 * (1100 + (mTest.offset.1 : ℝ) * (mTest.him_width : ℝ))
          / ((mTest.him_width : ℝ) * (mTest.level : ℝ)) - 1.0)
          / mTest.earth_rad_im
        * ((2.0 * (1100 + (mTest.offset.1 : ℝ) * (mTest.him_width : ℝ))
          / ((mTest.him_width : ℝ) * (mTest.level : ℝ)) - 1.0)
          / mTest.earth_rad_im)
      - (-2.0 * (1100 + (mTest.offset.2 : ℝ) * (mTest.him_height : ℝ))
          / ((mTest.him_width : ℝ) * (mTest.level : ℝ)) + 1.0)
          / mTest.earth_rad_im
        * ((-2.0 * (1100 + (mTest.offset.2 : ℝ) * (mTest.him_height : ℝ))
          / ((mTest.him_width : ℝ) * (mTest.level : ℝ)) + 1.0)
          / mTest.earth_rad_im) := by
    norm_num [mTest]
  have hsome := hiff.mpr hpos
  exact ⟨⟨rfl, hiff, hsome,
      (C7_vectorized_amended mTest 0).2.2.1 [1100] [1100] rfl hsome⟩,
    ⟨rfl, by norm_num,
      (C7_vectorized_amended mTest 0).2.2.2.1 [0, 0] [0, 0] rfl (by norm_num)⟩⟩

/-! ## The zero-scale sentinel -/

/-- C8: a scale of exactly zero disables the projection path — no `Mapper`
is constructed (`runMapper 0 … = some none`) and the crop branch is taken;
the projection branch runs exactly when a mapper was built and both output
width and height are nonzero, and a mapper is built only when the scale is
nonzero. -/
theorem C8_zero_scale (level : ℕ) (off : ℤ × ℤ) (center : Option String)
    (width height : ℝ) :
    runMapper 0 level off center = some none
    ∧ renderPath none width height = RenderPath.cropped
    ∧ (∀ mo : Option Mapper,
        renderPath mo width height = RenderPath.projected
          ↔ mo.isSome = true ∧ width ≠ 0 ∧ height ≠ 0)
    ∧ (∀ (s : ℝ) (mm : Mapper),
        runMapper s level off center = some (some mm) → s ≠ 0) := by
  refine ⟨by simp [runMapper], by simp [renderPath], fun mo => ?_,
    fun s mm h hs => ?_⟩
  · unfold renderPath
    by_cases hc : mo.isSome = true ∧ width ≠ 0 ∧ height ≠ 0
    · rw [if_pos hc]
      exact iff_of_true rfl hc
    · rw [if_neg hc]
      exact iff_of_false (by simp) hc
  · rw [hs] at h
    simp [runMapper] at h

/-- Witness for C8 at `scale = 0` and `scale = 1` with a 1920×1080 output
request. -/
theorem C8_zero_scale_witness :
    runMapper 0 4 (0, 0) none = some none
    ∧ renderPath none (1920 : ℝ) 1080 = RenderPath.cropped
    ∧ (renderPath (some mTest) (1920 : ℝ) 1080 = RenderPath.projected
        ↔ (some mTest).isSome = true ∧ (1920 : ℝ) ≠ 0 ∧ (1080 : ℝ) ≠ 0)
    ∧ (runMapper 1 4 (0, 0) none = some (some (defaultMapper 4 (0, 0) 1))
        ∧ (1 : ℝ) ≠ 0) := by
  have hrun : runMapper 1 4 (0, 0) none
      = some (some (defaultMapper 4 (0, 0) 1)) := by
    unfold runMapper
    rw [if_neg (by norm_num : ¬(1 : ℝ) = 0)]
    rfl
  exact ⟨(C8_zero_scale 4 (0, 0) none 1920 1080).1,
    (C8_zero_scale 4 (0, 0) none 1920 1080).2.1,
    (C8_zero_scale 4 (0, 0) none 1920 1080).2.2.1 (some mTest),
    hrun,
    (C8_zero_scale 4 (0, 0) none 1920 1080).2.2.2 1 (defaultMapper 4 (0, 0) 1)
      hrun⟩

/-! ## In-place mutation of the input array -/

/-- C9: `earth_to_cartesian` mutates its input in place — every constructed
configuration has `him_width = him_height = 550`, and after lines 51–54 run,
the caller's array has `offset_x·550` added to its x row and `offset_y·550`
added to its y row; whenever the x offset is nonzero the argument is not
preserved across the call. -/
theorem C9_inplace_mutation :
    (∀ (level : ℕ) (offset : ℤ × ℤ) (scale : ℝ) (center : Option String)
        (mm : Mapper),
      Mapper.init level offset scale center = some mm →
        mm.him_width = 550 ∧ mm.him_height = 550)
    ∧ (∀ (m : Mapper) (earth : List ℝ × List ℝ),
        m.him_width = 550 → m.him_height = 550 →
        m.earth_to_cartesian_mutated earth
          = (earth.1.map (fun t => t + (m.offset.1 : ℝ) * 550),
             earth.2.map (fun t => t + (m.offset.2 : ℝ) * 550)))
    ∧ (∀ (m : Mapper) (x : ℝ) (xs ys : List ℝ),
        m.him_width = 550 → m.offset.1 ≠ 0 →
        m.earth_to_cartesian_mutated (x :: xs, ys) ≠ (x :: xs, ys)) := by
  refine ⟨fun level offset scale center mm h => ?_,
    fun m e h1 h2 => ?_, fun m x xs ys h1 hoff heq => ?_⟩
  · cases center with
    | none =>
      simp [Mapper.init] at h
      subst h
      exact ⟨rfl, rfl⟩
    | some str =>
      by_cases hs : str = ""
      · simp [Mapper.init, hs] at h
        subst h
        exact ⟨rfl, rfl⟩
      · rcases hp : parseCenter str with - | v
        · simp [Mapper.init, hs, hp] at h
        · simp [Mapper.init, hs, hp] at h
          subst h
          exact ⟨rfl, rfl⟩
  · simp [Mapper.earth_to_cartesian_mutated, h1, h2]
  · have h2 := congrArg Prod.fst heq
    simp only [Mapper.earth_to_cartesian_mutated, List.map_cons] at h2
    have hx : x + (m.offset.1 : ℝ) * (m.him_width : ℝ) = x :=
      (List.cons_eq_cons.mp h2).1
    rw [h1] at hx
    have hmul : (m.offset.1 : ℝ) * ((550 : ℕ) : ℝ) = 0 := by linarith
    have h0 : (m.offset.1 : ℝ) = 0 := by
      rcases mul_eq_zero.mp hmul with h | h
      · exact h
      · norm_num at h
    exact hoff (by exact_mod_cast h0)

/-- Witness for C9: the default-constructed mapper has a 550-pixel tile
size; at `mTest` the mutation adds the offsets; at `mOff` (offset `(5, 2)`)
the argument is not preserved. -/
theorem C9_inplace_mutation_witness :
    (Mapper.init 4 (5, 2) 1 none = some (defaultMapper 4 (5, 2) 1)
      ∧ (defaultMapper 4 (5, 2) 1).him_width = 550
      ∧ (defaultMapper 4 (5, 2) 1).him_height = 550)
    ∧ (mTest.him_width = 550 ∧ mTest.him_height = 550
      ∧ mTest.earth_to_cartesian_mutated ([3], [4])
        = ([3 + (mTest.offset.1 : ℝ) * 550], [4 + (mTest.offset.2 : ℝ) * 550]))
    ∧ (mOff.him_width = 550 ∧ mOff.offset.1 ≠ 0
      ∧ mOff.earth_to_cartesian_mutated ((3 : ℝ) :: [], [4])
          ≠ ((3 : ℝ) :: [], [4])) := by
  have hinit : Mapper.init 4 (5, 2) 1 none = some (defaultMapper 4 (5, 2) 1) :=
    rfl
  have hd := C9_inplace_mutation.1 4 (5, 2) 1 none (defaultMapper 4 (5, 2) 1)
    hinit
  have hoff1 : mOff.offset.1 ≠ 0 := by decide
  have hne := C9_inplace_mutation.2.2 mOff 3 [] [4] rfl hoff1
  refine ⟨⟨hinit, hd.1, hd.2⟩, ⟨rfl, rfl, ?_⟩, ⟨rfl, hoff1, hne⟩⟩
  simpa using C9_inplace_mutation.2.1 mTest ([3], [4]) rfl rfl
